import Mathlib

/-!
Verification of the usage-metering / entitlement engine of the quiz-server
repository.  The definitions below are a shallow embedding of the request
handlers and helpers of the route file: Firestore's per-user document is an
`Option UserRecord` (the single document keyed by the user id), timestamps are
integers, and JavaScript `Date` calendar arithmetic (`setMonth`/`setFullYear`)
is modelled on a `CalDate` structure with the same overflow behaviour.
External fallible collaborators (the generative model, PDF parsing, the
document store's writes) are modelled by explicit outcome parameters threaded
into the route functions.
-/

namespace GitQuizServer

/-! ## Calendar model (JavaScript `Date` month/year arithmetic) -/

/-- Gregorian leap-year test, as JavaScript `Date` implements it. -/
def isLeap (y : Int) : Bool :=
  (y % 4 == 0 && y % 100 != 0) || y % 400 == 0

/-- Days in month `m` (0-based, as JavaScript `getMonth`) of year `y`. -/
def daysInMonth (y : Int) (m : Nat) : Nat :=
  if m = 1 then (if isLeap y then 29 else 28)
  else if m = 3 ∨ m = 5 ∨ m = 8 ∨ m = 10 then 30
  else 31

/-- A calendar date with a JavaScript-style 0-based month. -/
structure CalDate where
  year : Int
  month : Nat
  day : Nat
deriving DecidableEq, Repr

/-- The date denotes an actual calendar day. -/
def validDate (d : CalDate) : Prop :=
  d.month ≤ 11 ∧ 1 ≤ d.day ∧ d.day ≤ daysInMonth d.year d.month

instance (d : CalDate) : Decidable (validDate d) := by
  unfold validDate; infer_instance

/-- `d.setMonth(d.getMonth() + k)` of a JavaScript `Date`: the month index is
taken modulo 12 with the year absorbing the quotient, and a day-of-month that
does not exist in the target month overflows into the following month (e.g.
Jan 31 plus one month is Mar 3).  Since the day of a valid date is at most 31
and every month has at least 28 days, a single overflow step suffices. -/
def jsAddMonths (d : CalDate) (k : Nat) : CalDate :=
  let t := d.month + k
  let y := d.year + ((t / 12 : Nat) : Int)
  let m := t % 12
  if d.day ≤ daysInMonth y m then ⟨y, m, d.day⟩
  else if m = 11 then ⟨y + 1, 0, d.day - daysInMonth y m⟩
  else ⟨y, m + 1, d.day - daysInMonth y m⟩

/-- `d.setFullYear(d.getFullYear() + k)`: keeps month and day; the only
overflow case is Feb 29 mapped into a non-leap year, which becomes Mar 1. -/
def jsAddYears (d : CalDate) (k : Nat) : CalDate :=
  let y := d.year + (k : Int)
  if d.day ≤ daysInMonth y d.month then ⟨y, d.month, d.day⟩
  else if d.month = 11 then ⟨y + 1, 0, d.day - daysInMonth y d.month⟩
  else ⟨y, d.month + 1, d.day - daysInMonth y d.month⟩

/-- The `switch (plan)` of the subscribe handler: the expiry date computed
from the current date, or `none` for an invalid plan (HTTP 400). -/
def planExpiry (plan : String) (now : CalDate) : Option CalDate :=
  if plan = "monthly" then some (jsAddMonths now 1)
  else if plan = "quarterly" then some (jsAddMonths now 3)
  else if plan = "yearly" then some (jsAddYears now 1)
  else none

/-- Days of year `y` strictly before month `m` (0-based). -/
def daysBeforeMonth (y : Int) (m : Nat) : Nat :=
  (List.range m).foldl (fun a i => a + daysInMonth y i) 0

/-- Leap days occurring in years strictly before `y`. -/
def leapsBefore (y : Int) : Int :=
  (y - 1).fdiv 4 - (y - 1).fdiv 100 + (y - 1).fdiv 400

/-- Rata-die serial day number of a date, used only to compare day distances
between concrete dates. -/
def rataDie (d : CalDate) : Int :=
  365 * (d.year - 1) + leapsBefore d.year
    + ((daysBeforeMonth d.year d.month : Nat) : Int) + (d.day : Int)

/-! ## Entitlement records and the metering engine -/

/-- The per-user Firestore document of the `users` collection.  The
`user_id` field is optional because the subscribe handler's `setDoc` creates
records without it.  Timestamps are integers. -/
structure UserRecord where
  user_id : Option String
  free_generations_remaining : Int
  subscription_status : String
  subscription_expiry : Option Int
  created_at : Int
deriving DecidableEq, Repr

/-- The value returned by `checkUserUsage`. -/
structure UsageStatus where
  canGenerate : Bool
  remainingFree : Int
  subscriptionStatus : String
deriving DecidableEq, Repr

/-- The free-tier tail of `checkUserUsage`: allowed exactly when the stored
counter is positive. -/
def freeDecision (u : UserRecord) : UsageStatus :=
  if 0 < u.free_generations_remaining then
    ⟨true, u.free_generations_remaining, "free"⟩
  else
    ⟨false, 0, "free"⟩

/-- The `updateDoc` reverting an expired subscription to the free tier. -/
def normalizeRecord (u : UserRecord) : UserRecord :=
  { u with subscription_status := "free", subscription_expiry := none }

/-- `checkUserUsage` (the spec's `evaluate`): creates a fresh record with ten
free generations for an unknown user, admits a subscriber whose expiry is in
the future without touching the counter, lazily reverts an expired or
expiry-less non-free record to the free tier, and otherwise decides on the
stored free counter. -/
def checkUserUsage (uid : String) (now : Int) :
    Option UserRecord → UsageStatus × Option UserRecord
  | none =>
      (⟨true, 10, "free"⟩, some ⟨some uid, 10, "free", none, now⟩)
  | some u =>
      if u.subscription_status ≠ "free" then
        match u.subscription_expiry with
        | some e =>
            if now < e then (⟨true, 0, u.subscription_status⟩, some u)
            else (freeDecision (normalizeRecord u), some (normalizeRecord u))
        | none => (freeDecision (normalizeRecord u), some (normalizeRecord u))
      else (freeDecision u, some u)

/-- `decrementFreeUsage` (the spec's `consume`): reloads the record and
decrements the free counter only when the status is `free` and the counter is
positive; in every other case it returns 0 and writes nothing. -/
def decrementFreeUsage :
    Option UserRecord → Int × Option UserRecord
  | none => (0, none)
  | some u =>
      if u.subscription_status = "free" ∧ 0 < u.free_generations_remaining then
        (u.free_generations_remaining - 1,
         some { u with
                  free_generations_remaining := u.free_generations_remaining - 1 })
      else (0, some u)

/-! ## Subscription-info read endpoint (`GET /api/user/subscription/:userId`) -/

/-- The JSON body returned by the subscription-info endpoint. -/
structure SubInfoResponse where
  free_generations_remaining : Int
  subscription_status : String
  subscription_expiry : Option Int
deriving DecidableEq, Repr

/-- `userData.subscription_status || 'free'`: the only falsy string is the
empty one. -/
def reportStatus (s : String) : String :=
  if s = "" then "free" else s

/-- The expiry test of the info endpoint: non-free status with an expiry
strictly in the past (a `null` expiry is falsy and short-circuits). -/
def subInfoExpired (now : Int) (u : UserRecord) : Bool :=
  (u.subscription_status != "free") &&
    (match u.subscription_expiry with
     | some e => decide (e < now)
     | none => false)

/-- The subscription-info handler: creates the record if absent (with ten
free generations), lazily normalizes a record whose non-null expiry has
passed, and reports the (possibly normalized) record.  Note that, unlike
`checkUserUsage`, it does not normalize a non-free record whose expiry is
`null`.  (The handler reports `free_generations_remaining || 0`, which on
integers is the stored value itself.) -/
def getSubscriptionInfo (uid : String) (now : Int) :
    Option UserRecord → SubInfoResponse × Option UserRecord
  | none =>
      (⟨10, "free", none⟩, some ⟨some uid, 10, "free", none, now⟩)
  | some u =>
      if subInfoExpired now u then
        (⟨(normalizeRecord u).free_generations_remaining,
          reportStatus (normalizeRecord u).subscription_status,
          (normalizeRecord u).subscription_expiry⟩,
         some (normalizeRecord u))
      else
        (⟨u.free_generations_remaining,
          reportStatus u.subscription_status,
          u.subscription_expiry⟩,
         some u)

/-! ## Subscribe route (`POST /api/user/subscribe`) -/

/-- The observable outcome of the subscribe route. -/
inductive SubscribeResponse where
  | badRequest
  | ok (plan : String) (expiry : CalDate)
deriving DecidableEq, Repr

/-- The subscribe handler: an invalid plan is rejected with no state change;
otherwise the expiry is computed by calendar arithmetic from the current
date, and the record is created (with a zero free counter and no `user_id`
field) or updated (leaving the free counter and `created_at` untouched). -/
def subscribeRoute (plan : String) (nowDate : CalDate) (nowTs : Int) :
    Option UserRecord → SubscribeResponse × Option UserRecord :=
  fun st =>
    match planExpiry plan nowDate with
    | none => (.badRequest, st)
    | some e =>
        match st with
        | none =>
            (.ok plan e, some ⟨none, 0, plan, some (rataDie e), nowTs⟩)
        | some u =>
            (.ok plan e,
             some { u with subscription_status := plan,
                           subscription_expiry := some (rataDie e) })

/-! ## Generated content, sanitization, fallbacks -/

/-- A question as found in the parsed generator output; fields may be absent
(or empty, which JavaScript treats the same through its truthiness checks). -/
structure RawQuestion where
  question : Option String
  qtype : Option String
  options : Option (List String)
  answer : Option String
deriving DecidableEq, Repr

/-- A sanitized question as persisted. -/
structure Question where
  question : String
  qtype : String
  options : List String
  answer : String
deriving DecidableEq, Repr

/-- A flashcard as found in the parsed generator output. -/
structure RawFlashcard where
  term : Option String
  definition : Option String
deriving DecidableEq, Repr

/-- A sanitized flashcard as persisted. -/
structure Flashcard where
  term : String
  definition : String
deriving DecidableEq, Repr

/-- The parsed generator output. -/
structure RawContent where
  questions : List RawQuestion
  flashcards : List RawFlashcard
deriving DecidableEq, Repr

/-- JavaScript truthiness of an optional string field. -/
def truthy : Option String → Bool
  | none => false
  | some s => s != ""

/-- ASCII lower-casing, modelling `q.type.toLowerCase()` (the handlers only
compare the result against the ASCII literal "multiple_choice"). -/
def lowerAscii (s : String) : String :=
  ⟨s.data.map (fun c =>
    if 65 ≤ c.toNat ∧ c.toNat ≤ 90 then Char.ofNat (c.toNat + 32) else c)⟩

/-- The per-question sanitizer of the handlers: throws (`none`) when
`question`, `type` or `answer` is missing or empty; multiple-choice questions
keep their option list (defaulting to `[]`), all others get
`["True", "False"]`. -/
def sanitizeQuestion (q : RawQuestion) : Option Question :=
  if truthy q.question && truthy q.qtype && truthy q.answer then
    some ⟨q.question.getD "", q.qtype.getD "",
          (if lowerAscii (q.qtype.getD "") = "multiple_choice" then
             q.options.getD []
           else ["True", "False"]),
          q.answer.getD ""⟩
  else none

/-- The per-flashcard sanitizer: throws when `term` or `definition` is
missing or empty. -/
def sanitizeFlashcard (f : RawFlashcard) : Option Flashcard :=
  if truthy f.term && truthy f.definition then
    some ⟨f.term.getD "", f.definition.getD ""⟩
  else none

/-- Sanitize a whole question list; any invalid entry aborts the request. -/
def sanitizeQuestions (qs : List RawQuestion) : Option (List Question) :=
  qs.mapM sanitizeQuestion

/-- Sanitize a whole flashcard list. -/
def sanitizeFlashcards (fs : List RawFlashcard) : Option (List Flashcard) :=
  fs.mapM sanitizeFlashcard

/-- The placeholder question substituted by `generateContent` on failure. -/
def fallbackQuestion : RawQuestion :=
  ⟨some "Error occurred. Is this a test?", some "true_false", none, some "True"⟩

/-- The placeholder flashcard substituted by `generateContent` on failure. -/
def fallbackFlashcard : RawFlashcard :=
  ⟨some "Error", some "Try again later"⟩

/-- `generateContent`: the upstream call and JSON parse are summarized by an
`Option RawContent` outcome (`none` for an upstream error or unparseable
output).  A failure is caught inside the function and replaced by a one-item
placeholder result; it is never rethrown. -/
def generateContent (includeFlashcards : Bool) (result : Option RawContent) :
    RawContent :=
  match result with
  | some c => ⟨c.questions, if includeFlashcards then c.flashcards else []⟩
  | none =>
      ⟨[fallbackQuestion],
       if includeFlashcards then [fallbackFlashcard] else []⟩

/-- The parsed mock-test payload (opaque to the metering logic). -/
structure MockTestData where
  topic : String
deriving DecidableEq, Repr

/-- `generateMockTest`: unlike `generateContent`, its catch block rethrows,
so a generator failure propagates to the route's catch handler. -/
def generateMockTest (result : Option MockTestData) :
    Except Unit MockTestData :=
  match result with
  | some m => .ok m
  | none => .error ()

/-! ## Generation-gated routes -/

/-- The observable outcome of the quiz-generation routes. -/
inductive CCResponse where
  | badRequest
  | forbidden (subscriptionStatus : String) (remainingFree : Int)
  | serverError
  | created (subscriptionStatus : String) (remainingFree : Int)
      (questions : List Question) (flashcards : List Flashcard)
deriving DecidableEq, Repr

/-- Whether a response is the 201 success. -/
def CCResponse.isSuccess : CCResponse → Bool
  | .created _ _ _ _ => true
  | _ => false

/-- `POST /api/create_content`: validate fields, evaluate entitlement (403 if
denied), generate (with internal fallback), sanitize (500 on invalid shape),
persist (500 on store failure, modelled by `persistOk`), and only then
decrement the free counter when the evaluation reported the free tier. -/
def createContentRoute (uid : String) (now : Int) (fieldsValid : Bool)
    (includeFlashcards : Bool) (gen : Option RawContent) (persistOk : Bool)
    (st : Option UserRecord) : CCResponse × Option UserRecord :=
  if !fieldsValid then (.badRequest, st)
  else
    let r := checkUserUsage uid now st
    if !r.1.canGenerate then
      (.forbidden r.1.subscriptionStatus r.1.remainingFree, r.2)
    else
      let content := generateContent includeFlashcards gen
      match sanitizeQuestions content.questions,
            sanitizeFlashcards content.flashcards with
      | some qs, some fs =>
          if !persistOk then (.serverError, r.2)
          else if r.1.subscriptionStatus = "free" then
            let d := decrementFreeUsage r.2
            (.created r.1.subscriptionStatus d.1 qs fs, d.2)
          else
            (.created r.1.subscriptionStatus r.1.remainingFree qs fs, r.2)
      | _, _ => (.serverError, r.2)

/-- `POST /api/upload_pdf`: same gated pipeline with the additional
PDF-specific steps (missing file / missing fields → 400 before evaluation;
PDF parse failure → 500; invalid page range → 400, both after evaluation). -/
def uploadPdfRoute (uid : String) (now : Int) (filePresent fieldsValid : Bool)
    (pdfOk rangeValid : Bool) (includeFlashcards : Bool)
    (gen : Option RawContent) (persistOk : Bool)
    (st : Option UserRecord) : CCResponse × Option UserRecord :=
  if !filePresent then (.badRequest, st)
  else if !fieldsValid then (.badRequest, st)
  else
    let r := checkUserUsage uid now st
    if !r.1.canGenerate then
      (.forbidden r.1.subscriptionStatus r.1.remainingFree, r.2)
    else if !pdfOk then (.serverError, r.2)
    else if !rangeValid then (.badRequest, r.2)
    else
      let content := generateContent includeFlashcards gen
      match sanitizeQuestions content.questions,
            sanitizeFlashcards content.flashcards with
      | some qs, some fs =>
          if !persistOk then (.serverError, r.2)
          else if r.1.subscriptionStatus = "free" then
            let d := decrementFreeUsage r.2
            (.created r.1.subscriptionStatus d.1 qs fs, d.2)
          else
            (.created r.1.subscriptionStatus r.1.remainingFree qs fs, r.2)
      | _, _ => (.serverError, r.2)

/-- The observable outcome of the mock-test route. -/
inductive MTResponse where
  | badRequest
  | forbidden (subscriptionStatus : String) (remainingFree : Int)
  | serverError
  | created (subscriptionStatus : String) (remainingFree : Int)
deriving DecidableEq, Repr

/-- Whether a mock-test response is the 201 success. -/
def MTResponse.isSuccess : MTResponse → Bool
  | .created _ _ => true
  | _ => false

/-- `POST /api/mock-test/generate`: a generator failure is rethrown by
`generateMockTest` and caught by the route's catch handler as a 500; PDF
rendering and persistence failures likewise; the free counter is decremented
only in the success path. -/
def mockTestRoute (uid : String) (now : Int) (fieldsValid : Bool)
    (gen : Option MockTestData) (pdfOk persistOk : Bool)
    (st : Option UserRecord) : MTResponse × Option UserRecord :=
  if !fieldsValid then (.badRequest, st)
  else
    let r := checkUserUsage uid now st
    if !r.1.canGenerate then
      (.forbidden r.1.subscriptionStatus r.1.remainingFree, r.2)
    else
      match generateMockTest gen with
      | .error _ => (.serverError, r.2)
      | .ok _ =>
          if !pdfOk then (.serverError, r.2)
          else if !persistOk then (.serverError, r.2)
          else if r.1.subscriptionStatus = "free" then
            let d := decrementFreeUsage r.2
            (.created r.1.subscriptionStatus d.1, d.2)
          else
            (.created r.1.subscriptionStatus r.1.remainingFree, r.2)

/-- Iterated `create_content` requests (arbitrary per-request flags and
generator outcomes), for stating frame properties across many generations. -/
def iterateCreateContent (uid : String) (now : Int)
    (steps : List (Bool × Bool × Option RawContent × Bool))
    (st : Option UserRecord) : Option UserRecord :=
  steps.foldl
    (fun s p => (createContentRoute uid now p.1 p.2.1 p.2.2.1 p.2.2.2 s).2) st

/-- The four statuses the system itself ever stores (the data-model enum):
`free` plus the three accepted plans. -/
def ValidStatus (s : String) : Prop :=
  s = "free" ∨ s = "monthly" ∨ s = "quarterly" ∨ s = "yearly"

/-! ## Helper lemmas about the metering engine -/

lemma checkUserUsage_active (uid : String) (now : Int) (u : UserRecord)
    (e : Int) (h1 : u.subscription_status ≠ "free")
    (h2 : u.subscription_expiry = some e) (h3 : now < e) :
    checkUserUsage uid now (some u) = (⟨true, 0, u.subscription_status⟩, some u) := by
  simp [checkUserUsage, h1, h2, h3]

lemma checkUserUsage_lapsed (uid : String) (now : Int) (u : UserRecord)
    (h1 : u.subscription_status ≠ "free")
    (h2 : u.subscription_expiry = none ∨ ∃ e, u.subscription_expiry = some e ∧ e ≤ now) :
    checkUserUsage uid now (some u) =
      (freeDecision (normalizeRecord u), some (normalizeRecord u)) := by
  rcases h2 with h2 | ⟨e, h2, h3⟩ <;> simp [checkUserUsage, h1, h2]
  intro h
  omega

lemma checkUserUsage_free (uid : String) (now : Int) (u : UserRecord)
    (h : u.subscription_status = "free") :
    checkUserUsage uid now (some u) = (freeDecision u, some u) := by
  simp [checkUserUsage, h]

lemma checkUserUsage_preserves_free (uid : String) (now : Int) (u : UserRecord) :
    ((checkUserUsage uid now (some u)).2).map UserRecord.free_generations_remaining =
      some u.free_generations_remaining := by
  by_cases h : u.subscription_status = "free"
  · rw [checkUserUsage_free uid now u h]; rfl
  · rcases he : u.subscription_expiry with _ | e
    · rw [checkUserUsage_lapsed uid now u h (Or.inl he)]; rfl
    · by_cases h3 : now < e
      · rw [checkUserUsage_active uid now u e h he h3]; rfl
      · rw [checkUserUsage_lapsed uid now u h (Or.inr ⟨e, he, by omega⟩)]; rfl

lemma createContent_subscriber_state (uid : String) (now : Int) (u : UserRecord)
    (e : Int) (h1 : u.subscription_status ≠ "free")
    (h2 : u.subscription_expiry = some e) (h3 : now < e)
    (fv inc : Bool) (gen : Option RawContent) (p : Bool) :
    (createContentRoute uid now fv inc gen p (some u)).2 = some u := by
  have hc := checkUserUsage_active uid now u e h1 h2 h3
  cases fv
  · simp [createContentRoute]
  · simp only [createContentRoute, hc]
    cases hq : sanitizeQuestions (generateContent inc gen).questions <;>
      cases hf : sanitizeFlashcards (generateContent inc gen).flashcards <;>
        simp [hq, hf, h1] <;> cases p <;> simp [h1]

lemma uploadPdf_subscriber_state (uid : String) (now : Int) (u : UserRecord)
    (e : Int) (h1 : u.subscription_status ≠ "free")
    (h2 : u.subscription_expiry = some e) (h3 : now < e)
    (fp fvv pok rv inc : Bool) (gen : Option RawContent) (p : Bool) :
    (uploadPdfRoute uid now fp fvv pok rv inc gen p (some u)).2 = some u := by
  have hc := checkUserUsage_active uid now u e h1 h2 h3
  cases fp
  · simp [uploadPdfRoute]
  · cases fvv
    · simp [uploadPdfRoute]
    · simp only [uploadPdfRoute, hc]
      cases pok <;> cases rv <;>
        cases hq : sanitizeQuestions (generateContent inc gen).questions <;>
          cases hf : sanitizeFlashcards (generateContent inc gen).flashcards <;>
            simp [hq, hf, h1] <;> cases p <;> simp [h1]

lemma mockTest_subscriber_state (uid : String) (now : Int) (u : UserRecord)
    (e : Int) (h1 : u.subscription_status ≠ "free")
    (h2 : u.subscription_expiry = some e) (h3 : now < e)
    (fv : Bool) (gen : Option MockTestData) (pok p : Bool) :
    (mockTestRoute uid now fv gen pok p (some u)).2 = some u := by
  have hc := checkUserUsage_active uid now u e h1 h2 h3
  cases fv
  · simp [mockTestRoute]
  · simp only [mockTestRoute, hc]
    cases gen <;> simp [generateMockTest, h1] <;>
      cases pok <;> simp [h1] <;> cases p <;> simp [h1]

lemma iterateCreateContent_subscriber_state (uid : String) (now : Int)
    (u : UserRecord) (e : Int) (h1 : u.subscription_status ≠ "free")
    (h2 : u.subscription_expiry = some e) (h3 : now < e)
    (steps : List (Bool × Bool × Option RawContent × Bool)) :
    iterateCreateContent uid now steps (some u) = some u := by
  induction steps with
  | nil => rfl
  | cons p ps ih =>
      show iterateCreateContent uid now ps
        ((createContentRoute uid now p.1 p.2.1 p.2.2.1 p.2.2.2 (some u)).2) = some u
      rw [createContent_subscriber_state uid now u e h1 h2 h3]
      exact ih

lemma createContent_fail_state (uid : String) (now : Int) (fv inc : Bool)
    (gen : Option RawContent) (p : Bool) (st : Option UserRecord)
    (h : ((createContentRoute uid now fv inc gen p st).1).isSuccess = false) :
    (createContentRoute uid now fv inc gen p st).2 = st ∨
      (createContentRoute uid now fv inc gen p st).2 = (checkUserUsage uid now st).2 := by
  cases fv
  · left; simp [createContentRoute]
  · simp only [createContentRoute] at h ⊢
    cases hcg : (checkUserUsage uid now st).1.canGenerate
    · right; simp [hcg]
    · simp only [hcg] at h ⊢
      cases hq : sanitizeQuestions (generateContent inc gen).questions <;>
        cases hf : sanitizeFlashcards (generateContent inc gen).flashcards <;>
          simp only [hq, hf] at h ⊢
      · right; simp
      · right; simp
      · right; simp
      · cases p
        · right; simp
        · by_cases hs : (checkUserUsage uid now st).1.subscriptionStatus = "free" <;>
            simp [hs, CCResponse.isSuccess] at h

lemma uploadPdf_fail_state (uid : String) (now : Int) (fp fvv pok rv inc : Bool)
    (gen : Option RawContent) (p : Bool) (st : Option UserRecord)
    (h : ((uploadPdfRoute uid now fp fvv pok rv inc gen p st).1).isSuccess = false) :
    (uploadPdfRoute uid now fp fvv pok rv inc gen p st).2 = st ∨
      (uploadPdfRoute uid now fp fvv pok rv inc gen p st).2 = (checkUserUsage uid now st).2 := by
  cases fp
  · left; simp [uploadPdfRoute]
  · cases fvv
    · left; simp [uploadPdfRoute]
    · simp only [uploadPdfRoute] at h ⊢
      cases hcg : (checkUserUsage uid now st).1.canGenerate
      · right; simp [hcg]
      · simp only [hcg] at h ⊢
        cases pok
        · right; simp
        · cases rv
          · right; simp
          · simp only [Bool.not_true, Bool.false_eq_true, if_false] at h ⊢
            cases hq : sanitizeQuestions (generateContent inc gen).questions <;>
              cases hf : sanitizeFlashcards (generateContent inc gen).flashcards <;>
                simp only [hq, hf] at h ⊢
            · right; simp
            · right; simp
            · right; simp
            · cases p
              · right; simp
              · by_cases hs : (checkUserUsage uid now st).1.subscriptionStatus = "free" <;>
                  simp [hs, CCResponse.isSuccess] at h

lemma mockTest_fail_state (uid : String) (now : Int) (fv : Bool)
    (gen : Option MockTestData) (pok p : Bool) (st : Option UserRecord)
    (h : ((mockTestRoute uid now fv gen pok p st).1).isSuccess = false) :
    (mockTestRoute uid now fv gen pok p st).2 = st ∨
      (mockTestRoute uid now fv gen pok p st).2 = (checkUserUsage uid now st).2 := by
  cases fv
  · left; simp [mockTestRoute]
  · simp only [mockTestRoute] at h ⊢
    cases hcg : (checkUserUsage uid now st).1.canGenerate
    · right; simp [hcg]
    · simp only [hcg] at h ⊢
      cases gen
      · right; simp [generateMockTest]
      · simp only [generateMockTest] at h ⊢
        cases pok
        · right; simp
        · cases p
          · right; simp
          · by_cases hs : (checkUserUsage uid now st).1.subscriptionStatus = "free" <;>
              simp [hs, MTResponse.isSuccess] at h

lemma createContent_persistFail_no_success (uid : String) (now : Int)
    (fv inc : Bool) (gen : Option RawContent) (st : Option UserRecord) :
    ((createContentRoute uid now fv inc gen false st).1).isSuccess = false := by
  cases fv
  · simp [createContentRoute, CCResponse.isSuccess]
  · simp only [createContentRoute]
    cases hcg : (checkUserUsage uid now st).1.canGenerate
    · simp [hcg, CCResponse.isSuccess]
    · simp only [Bool.not_true, Bool.false_eq_true, if_false]
      cases hq : sanitizeQuestions (generateContent inc gen).questions <;>
        cases hf : sanitizeFlashcards (generateContent inc gen).flashcards <;>
          simp [hq, hf, CCResponse.isSuccess]

lemma uploadPdf_persistFail_no_success (uid : String) (now : Int)
    (fp fvv pok rv inc : Bool) (gen : Option RawContent) (st : Option UserRecord) :
    ((uploadPdfRoute uid now fp fvv pok rv inc gen false st).1).isSuccess = false := by
  cases fp
  · simp [uploadPdfRoute, CCResponse.isSuccess]
  · cases fvv
    · simp [uploadPdfRoute, CCResponse.isSuccess]
    · simp only [uploadPdfRoute]
      cases hcg : (checkUserUsage uid now st).1.canGenerate
      · simp [hcg, CCResponse.isSuccess]
      · simp only [Bool.not_true, Bool.false_eq_true, if_false]
        cases pok
        · simp [CCResponse.isSuccess]
        · cases rv
          · simp [CCResponse.isSuccess]
          · simp only [Bool.not_true, Bool.false_eq_true, if_false]
            cases hq : sanitizeQuestions (generateContent inc gen).questions <;>
              cases hf : sanitizeFlashcards (generateContent inc gen).flashcards <;>
                simp [hq, hf, CCResponse.isSuccess]

lemma mockTest_persistFail_no_success (uid : String) (now : Int) (fv : Bool)
    (gen : Option MockTestData) (pok : Bool) (st : Option UserRecord) :
    ((mockTestRoute uid now fv gen pok false st).1).isSuccess = false := by
  cases fv
  · simp [mockTestRoute, MTResponse.isSuccess]
  · simp only [mockTestRoute]
    cases hcg : (checkUserUsage uid now st).1.canGenerate
    · simp [hcg, MTResponse.isSuccess]
    · simp only [Bool.not_true, Bool.false_eq_true, if_false]
      cases gen
      · simp [generateMockTest, MTResponse.isSuccess]
      · simp only [generateMockTest]
        cases pok <;> simp [MTResponse.isSuccess]

/-! ## Helper lemmas about the calendar model -/

lemma le_daysInMonth (y : Int) (m : Nat) : 28 ≤ daysInMonth y m := by
  unfold daysInMonth
  split
  · split <;> norm_num
  · split <;> norm_num

lemma daysInMonth_ne_feb (y z : Int) (m : Nat) (h : m ≠ 1) :
    daysInMonth y m = daysInMonth z m := by
  unfold daysInMonth
  rw [if_neg h, if_neg h]

lemma jsAddMonths_one (d : CalDate) (hv : validDate d) (h28 : d.day ≤ 28) :
    jsAddMonths d 1 =
      ⟨if d.month = 11 then d.year + 1 else d.year, (d.month + 1) % 12, d.day⟩ := by
  obtain ⟨hm, _, _⟩ := hv
  have hd : d.day ≤ daysInMonth (d.year + (((d.month + 1) / 12 : Nat) : Int))
      ((d.month + 1) % 12) := le_trans h28 (le_daysInMonth _ _)
  simp only [jsAddMonths, if_pos hd]
  rcases Nat.lt_or_ge d.month 11 with h | h
  · have e1 : (d.month + 1) / 12 = 0 := Nat.div_eq_of_lt (by omega)
    have e2 : d.month ≠ 11 := by omega
    simp [e1, e2]
  · have e3 : d.month = 11 := by omega
    simp [e3]

lemma jsAddMonths_three (d : CalDate) (hv : validDate d) (h28 : d.day ≤ 28) :
    jsAddMonths d 3 =
      ⟨if 9 ≤ d.month then d.year + 1 else d.year, (d.month + 3) % 12, d.day⟩ := by
  obtain ⟨hm, _, _⟩ := hv
  have hd : d.day ≤ daysInMonth (d.year + (((d.month + 3) / 12 : Nat) : Int))
      ((d.month + 3) % 12) := le_trans h28 (le_daysInMonth _ _)
  simp only [jsAddMonths, if_pos hd]
  rcases Nat.lt_or_ge d.month 9 with h | h
  · have e1 : (d.month + 3) / 12 = 0 := Nat.div_eq_of_lt (by omega)
    have e2 : ¬ 9 ≤ d.month := by omega
    simp [e1, e2]
  · have e1 : (d.month + 3) / 12 = 1 := by omega
    simp [e1, h]

lemma jsAddYears_one (d : CalDate) (hv : validDate d)
    (hx : ¬(d.month = 1 ∧ d.day = 29)) :
    jsAddYears d 1 = ⟨d.year + 1, d.month, d.day⟩ := by
  obtain ⟨hm, h1, h2⟩ := hv
  have hd : d.day ≤ daysInMonth (d.year + 1) d.month := by
    by_cases hf : d.month = 1
    · have hfe : daysInMonth d.year 1 ≤ 29 := by
        unfold daysInMonth
        norm_num
        split <;> norm_num
      have h29 : d.day ≤ 29 := by
        rw [hf] at h2
        omega
      have hne : d.day ≠ 29 := fun hc => hx ⟨hf, hc⟩
      calc d.day ≤ 28 := by omega
        _ ≤ daysInMonth (d.year + 1) d.month := le_daysInMonth _ _
    · rw [daysInMonth_ne_feb (d.year + 1) d.year d.month hf]
      exact h2
  simp only [jsAddYears, Nat.cast_one, if_pos hd]

/-! ## Claim theorems -/

/-- Claim C1: for every user whose entitlement record exists,
`decrementFreeUsage` decrements `free_generations_remaining` by exactly 1 and
persists the new value if and only if `subscription_status = free` and the
counter is positive; in every other case (non-free status, counter already 0,
or absent record) it returns 0 and leaves the record unchanged, so the
counter is never driven below 0. -/
theorem claim1_consume_decrements_iff_free_and_positive (st : Option UserRecord) :
    (∀ u, st = some u → u.subscription_status = "free" →
        0 < u.free_generations_remaining →
        decrementFreeUsage st =
          (u.free_generations_remaining - 1,
           some { u with free_generations_remaining :=
                    u.free_generations_remaining - 1 })) ∧
    ((∀ u, st = some u →
        ¬(u.subscription_status = "free" ∧ 0 < u.free_generations_remaining)) →
      decrementFreeUsage st = (0, st)) ∧
    (∀ u v, st = some u → (decrementFreeUsage st).2 = some v →
        0 ≤ u.free_generations_remaining → 0 ≤ v.free_generations_remaining) := by
  refine ⟨?_, ?_, ?_⟩
  · intro u h hs hp
    subst h
    simp [decrementFreeUsage, hs, hp]
  · intro hn
    cases st with
    | none => rfl
    | some u =>
        have := hn u rfl
        simp only [decrementFreeUsage]
        rw [if_neg this]
  · intro u v h hv hge
    subst h
    simp only [decrementFreeUsage] at hv
    split at hv
    · rename_i hc
      injection hv with hv2
      rw [← hv2]
      have := hc.2
      simp
      omega
    · injection hv with hv2
      rw [← hv2]
      exact hge

/-- Witness for C1: a concrete free record with 3 remaining decrements to 2. -/
theorem claim1_witness :
    decrementFreeUsage (some ⟨some "a", 3, "free", none, 0⟩) =
      (2, some ⟨some "a", 2, "free", none, 0⟩) := by
  have h := (claim1_consume_decrements_iff_free_and_positive
      (some ⟨some "a", 3, "free", none, 0⟩)).1
    ⟨some "a", 3, "free", none, 0⟩ rfl rfl (by norm_num)
  simpa using h

/-- Claim C2: for every `user_id` with no existing record, the first
`checkUserUsage` call creates a record with ten free generations, free
status, null expiry and `created_at` set to now, and returns
`allowed = true, remaining_free = 10, status = free`. -/
theorem claim2_first_evaluate_creates_free_ten (uid : String) (now : Int) :
    checkUserUsage uid now none =
      (⟨true, 10, "free"⟩, some ⟨some uid, 10, "free", none, now⟩) := rfl

/-- Claim C3: an active subscriber (non-free status, future expiry) is
allowed with `remaining_free = 0` and the stored status, and no
generation-gated route (quiz creation, PDF upload, mock test, or any number
of iterated generations) ever changes the stored record, in particular its
free counter. -/
theorem claim3_active_subscriber_bypasses_counter (uid : String) (now : Int)
    (u : UserRecord) (e : Int) (h1 : u.subscription_status ≠ "free")
    (h2 : u.subscription_expiry = some e) (h3 : now < e) :
    checkUserUsage uid now (some u) =
      (⟨true, 0, u.subscription_status⟩, some u) ∧
    (∀ fv inc gen p,
        (createContentRoute uid now fv inc gen p (some u)).2 = some u) ∧
    (∀ fp fvv pok rv inc gen p,
        (uploadPdfRoute uid now fp fvv pok rv inc gen p (some u)).2 = some u) ∧
    (∀ fv gen pok p,
        (mockTestRoute uid now fv gen pok p (some u)).2 = some u) ∧
    (∀ steps, iterateCreateContent uid now steps (some u) = some u) :=
  ⟨checkUserUsage_active uid now u e h1 h2 h3,
   fun fv inc gen p =>
     createContent_subscriber_state uid now u e h1 h2 h3 fv inc gen p,
   fun fp fvv pok rv inc gen p =>
     uploadPdf_subscriber_state uid now u e h1 h2 h3 fp fvv pok rv inc gen p,
   fun fv gen pok p =>
     mockTest_subscriber_state uid now u e h1 h2 h3 fv gen pok p,
   fun steps =>
     iterateCreateContent_subscriber_state uid now u e h1 h2 h3 steps⟩

/-- Witness for C3: a monthly subscriber at time 50 with expiry 100. -/
theorem claim3_witness :
    checkUserUsage "u" 50 (some ⟨some "u", 7, "monthly", some 100, 0⟩) =
      (⟨true, 0, "monthly"⟩, some ⟨some "u", 7, "monthly", some 100, 0⟩) :=
  (claim3_active_subscriber_bypasses_counter "u" 50
    ⟨some "u", 7, "monthly", some 100, 0⟩ 100 (by decide) rfl (by norm_num)).1

/-- Claim C4: evaluating a non-free record with no expiry or a past expiry
rewrites it to free status with null expiry, preserving the stored counter
and `created_at`, and returns the free-tier decision computed on the
normalized state. -/
theorem claim4_evaluate_normalizes_lapsed (uid : String) (now : Int)
    (u : UserRecord) (h1 : u.subscription_status ≠ "free")
    (h2 : u.subscription_expiry = none ∨
          ∃ e, u.subscription_expiry = some e ∧ e < now) :
    checkUserUsage uid now (some u) =
      ((if 0 < u.free_generations_remaining then
          (⟨true, u.free_generations_remaining, "free"⟩ : UsageStatus)
        else ⟨false, 0, "free"⟩),
       some { u with subscription_status := "free",
                     subscription_expiry := none }) := by
  have h2' : u.subscription_expiry = none ∨
      ∃ e, u.subscription_expiry = some e ∧ e ≤ now := by
    rcases h2 with h | ⟨e, he, hl⟩
    · exact Or.inl h
    · exact Or.inr ⟨e, he, le_of_lt hl⟩
  rw [checkUserUsage_lapsed uid now u h1 h2']
  rfl

/-- Witness for C4: a yearly record expired at 10, evaluated at 50,
normalizes to free and preserves its 7 free generations. -/
theorem claim4_witness :
    checkUserUsage "u" 50 (some ⟨some "u", 7, "yearly", some 10, 0⟩) =
      (⟨true, 7, "free"⟩, some ⟨some "u", 7, "free", none, 0⟩) := by
  have h := claim4_evaluate_normalizes_lapsed "u" 50
    ⟨some "u", 7, "yearly", some 10, 0⟩ (by decide)
    (Or.inr ⟨10, rfl, by norm_num⟩)
  simpa using h

/-- Claim C9: `checkUserUsage` is idempotent on stable state: on an existing
record that is already normalized (free status, or a non-free status with a
future expiry) it performs no mutation, so a second run returns the same
observable result. -/
theorem claim9_evaluate_idempotent_on_stable_state (uid : String) (now : Int)
    (u : UserRecord)
    (h : u.subscription_status = "free" ∨
         ∃ e, u.subscription_expiry = some e ∧ now < e) :
    (checkUserUsage uid now (some u)).2 = some u ∧
    checkUserUsage uid now ((checkUserUsage uid now (some u)).2) =
      checkUserUsage uid now (some u) := by
  have hst : (checkUserUsage uid now (some u)).2 = some u := by
    by_cases hf : u.subscription_status = "free"
    · rw [checkUserUsage_free uid now u hf]
    · rcases h with h | ⟨e, he, hl⟩
      · exact absurd h hf
      · rw [checkUserUsage_active uid now u e hf he hl]
  exact ⟨hst, by rw [hst]⟩

/-- Witness for C9: a free record with 4 generations left is untouched by
evaluation. -/
theorem claim9_witness :
    (checkUserUsage "u" 0 (some ⟨some "u", 4, "free", none, 0⟩)).2 =
      some ⟨some "u", 4, "free", none, 0⟩ :=
  (claim9_evaluate_idempotent_on_stable_state "u" 0
    ⟨some "u", 4, "free", none, 0⟩ (Or.inl rfl)).1

/-- Claim C10: on a record with a valid non-free status and a null expiry,
the subscription-info endpoint performs no normalization and reports the
stored non-free status, whereas `checkUserUsage` normalizes the same record
to free status: the two read paths disagree on this shape of record. -/
theorem claim10_read_paths_disagree_on_null_expiry (uid : String) (now : Int)
    (u : UserRecord) (hv : ValidStatus u.subscription_status)
    (h1 : u.subscription_status ≠ "free")
    (h2 : u.subscription_expiry = none) :
    getSubscriptionInfo uid now (some u) =
      (⟨u.free_generations_remaining, u.subscription_status, none⟩, some u) ∧
    (checkUserUsage uid now (some u)).2 =
      some { u with subscription_status := "free",
                    subscription_expiry := none } ∧
    (checkUserUsage uid now (some u)).1.subscriptionStatus = "free" := by
  have hne : u.subscription_status ≠ "" := by
    rcases hv with h | h | h | h <;> rw [h] <;> decide
  have hexp : subInfoExpired now u = false := by
    simp [subInfoExpired, h2]
  refine ⟨?_, ?_, ?_⟩
  · simp [getSubscriptionInfo, hexp, reportStatus, hne, h2]
  · rw [checkUserUsage_lapsed uid now u h1 (Or.inl h2)]
    rfl
  · rw [checkUserUsage_lapsed uid now u h1 (Or.inl h2)]
    simp only [freeDecision]
    split <;> rfl

/-- Witness for C10: a monthly record with null expiry is reported as
monthly by the info endpoint but normalized to free by evaluation. -/
theorem claim10_witness :
    getSubscriptionInfo "u" 50 (some ⟨some "u", 7, "monthly", none, 0⟩) =
      (⟨7, "monthly", none⟩, some ⟨some "u", 7, "monthly", none, 0⟩) ∧
    (checkUserUsage "u" 50 (some ⟨some "u", 7, "monthly", none, 0⟩)).2 =
      some ⟨some "u", 7, "free", none, 0⟩ := by
  have h := claim10_read_paths_disagree_on_null_expiry "u" 50
    ⟨some "u", 7, "monthly", none, 0⟩ (Or.inr (Or.inl rfl)) (by decide) rfl
  exact ⟨h.1, h.2.1⟩

/-- Claim C5: for each valid plan, subscribe advances the current date by
one calendar month, three calendar months, or one calendar year (calendar
arithmetic — on non-overflowing days the day-of-month is preserved and only
the month/year advance, and the day distance added is not a fixed count),
stores the plan as the status and the computed expiry, creates the record if
absent, and leaves `free_generations_remaining` (and `created_at`) of an
existing record unchanged. -/
theorem claim5_subscribe_calendar_arithmetic :
    (∀ d, validDate d → d.day ≤ 28 →
        planExpiry "monthly" d =
          some ⟨if d.month = 11 then d.year + 1 else d.year,
                (d.month + 1) % 12, d.day⟩) ∧
    (∀ d, validDate d → d.day ≤ 28 →
        planExpiry "quarterly" d =
          some ⟨if 9 ≤ d.month then d.year + 1 else d.year,
                (d.month + 3) % 12, d.day⟩) ∧
    (∀ d, validDate d → ¬(d.month = 1 ∧ d.day = 29) →
        planExpiry "yearly" d = some ⟨d.year + 1, d.month, d.day⟩) ∧
    (rataDie (jsAddMonths ⟨2025, 0, 15⟩ 1) - rataDie ⟨2025, 0, 15⟩ = 31 ∧
     rataDie (jsAddMonths ⟨2025, 1, 15⟩ 1) - rataDie ⟨2025, 1, 15⟩ = 28) ∧
    (∀ plan d nowTs u,
        (plan = "monthly" ∨ plan = "quarterly" ∨ plan = "yearly") →
        ∃ e, planExpiry plan d = some e ∧
          subscribeRoute plan d nowTs (some u) =
            (.ok plan e,
             some { u with subscription_status := plan,
                           subscription_expiry := some (rataDie e) })) ∧
    (∀ plan d nowTs,
        (plan = "monthly" ∨ plan = "quarterly" ∨ plan = "yearly") →
        ∃ e, planExpiry plan d = some e ∧
          subscribeRoute plan d nowTs none =
            (.ok plan e, some ⟨none, 0, plan, some (rataDie e), nowTs⟩)) := by
  refine ⟨?_, ?_, ?_, ⟨by decide, by decide⟩, ?_, ?_⟩
  · intro d hv h28
    have h := jsAddMonths_one d hv h28
    simp [planExpiry, h]
  · intro d hv h28
    have h := jsAddMonths_three d hv h28
    simp [planExpiry, h]
  · intro d hv hx
    have h := jsAddYears_one d hv hx
    simp [planExpiry, h]
  · intro plan d nowTs u hp
    rcases hp with rfl | rfl | rfl <;>
      exact ⟨_, rfl, by simp [subscribeRoute, planExpiry]⟩
  · intro plan d nowTs hp
    rcases hp with rfl | rfl | rfl <;>
      exact ⟨_, rfl, by simp [subscribeRoute, planExpiry]⟩

/-- Witness for C5: subscribing monthly on 2025-01-15 yields expiry
2025-02-15, and the updated record keeps its 5 free generations. -/
theorem claim5_witness :
    planExpiry "monthly" ⟨2025, 0, 15⟩ = some ⟨2025, 1, 15⟩ ∧
    subscribeRoute "monthly" ⟨2025, 0, 15⟩ 3
        (some ⟨some "u", 5, "free", none, 1⟩) =
      (.ok "monthly" ⟨2025, 1, 15⟩,
       some ⟨some "u", 5, "monthly", some (rataDie ⟨2025, 1, 15⟩), 1⟩) := by
  constructor
  · have h := claim5_subscribe_calendar_arithmetic.1 ⟨2025, 0, 15⟩
      (by decide) (by decide)
    simpa using h
  · obtain ⟨e, he, hr⟩ :=
      claim5_subscribe_calendar_arithmetic.2.2.2.2.1 "monthly" ⟨2025, 0, 15⟩ 3
        ⟨some "u", 5, "free", none, 1⟩ (Or.inl rfl)
    have he2 : e = ⟨2025, 1, 15⟩ := by
      have h := claim5_subscribe_calendar_arithmetic.1 ⟨2025, 0, 15⟩
        (by decide) (by decide)
      rw [h] at he
      simpa using he.symm
    rw [he2] at hr
    simpa using hr

/-- Counterexample to C6: a record first created by the subscribe handler
starts with `free_generations_remaining = 0`, not 10. -/
theorem claim6_counterexample_subscribe_creates_zero :
    ((subscribeRoute "monthly" ⟨2025, 0, 15⟩ 0 none).2.map
        UserRecord.free_generations_remaining) = some 0 ∧
    ((subscribeRoute "monthly" ⟨2025, 0, 15⟩ 0 none).2.map
        UserRecord.free_generations_remaining) ≠ some 10 := by
  constructor
  · rfl
  · decide

/-- Claim C6 (amended): a record created by `checkUserUsage` or by the
subscription-info read starts with `free_generations_remaining = 10`, but a
record created by the subscribe handler starts with
`free_generations_remaining = 0`. -/
theorem claim6_amended_initial_counters (uid : String) (now nowTs : Int) :
    ((checkUserUsage uid now none).2.map
        UserRecord.free_generations_remaining = some 10) ∧
    ((getSubscriptionInfo uid now none).2.map
        UserRecord.free_generations_remaining = some 10) ∧
    (∀ plan d v, (subscribeRoute plan d nowTs none).2 = some v →
        v.free_generations_remaining = 0) := by
  refine ⟨rfl, rfl, ?_⟩
  intro plan d v h
  simp only [subscribeRoute] at h
  rcases hp : planExpiry plan d with _ | e <;> rw [hp] at h
  · exact absurd h (by simp)
  · simp only at h
    injection h with h2
    rw [← h2]

/-- Witness for C6 (amended): concrete creations by each of the three
operations. -/
theorem claim6_witness :
    ((checkUserUsage "u" 5 none).2.map
        UserRecord.free_generations_remaining = some 10) ∧
    (subscribeRoute "monthly" ⟨2025, 0, 15⟩ 7 none).2 =
      some ⟨none, 0, "monthly", some (rataDie ⟨2025, 1, 15⟩), 7⟩ ∧
    (⟨none, 0, "monthly", some (rataDie ⟨2025, 1, 15⟩), 7⟩ :
        UserRecord).free_generations_remaining = 0 := by
  refine ⟨(claim6_amended_initial_counters "u" 5 7).1, by decide, ?_⟩
  exact (claim6_amended_initial_counters "u" 5 7).2.2 "monthly" ⟨2025, 0, 15⟩
    ⟨none, 0, "monthly", some (rataDie ⟨2025, 1, 15⟩), 7⟩ (by decide)

/-- Counterexample to C7: on the mock-test route a generator failure is not
recovered with a placeholder — it propagates to the catch handler and the
request fails with a server error (here for a free user with full quota). -/
theorem claim7_counterexample_mockTest_propagates :
    (mockTestRoute "u" 0 true none true true
        (some ⟨some "u", 10, "free", none, 0⟩)).1 = .serverError ∧
    (mockTestRoute "u" 0 true none true true
        (some ⟨some "u", 10, "free", none, 0⟩)).1 ≠ .created "free" 9 := by
  constructor
  · rfl
  · decide

/-- Claim C7 (amended): for the quiz/flashcard routes (`create_content` and
`upload_pdf`) a generator failure is recovered locally by substituting the
one-item placeholder question (and, when requested, the one placeholder
flashcard), and the request still succeeds; the mock-test route instead
propagates the failure as a server error and makes no further change. -/
theorem claim7_amended_generator_failure_recovery (uid : String) (now : Int)
    (inc : Bool) (st : Option UserRecord)
    (h : ((checkUserUsage uid now st).1).canGenerate = true) :
    (∃ stat rem st2, createContentRoute uid now true inc none true st =
        (.created stat rem
          [⟨"Error occurred. Is this a test?", "true_false",
            ["True", "False"], "True"⟩]
          (if inc then [⟨"Error", "Try again later"⟩] else []), st2)) ∧
    (∃ stat rem st2, uploadPdfRoute uid now true true true true inc none true st =
        (.created stat rem
          [⟨"Error occurred. Is this a test?", "true_false",
            ["True", "False"], "True"⟩]
          (if inc then [⟨"Error", "Try again later"⟩] else []), st2)) ∧
    (∀ pdfOk persistOk, mockTestRoute uid now true none pdfOk persistOk st =
        (.serverError, (checkUserUsage uid now st).2)) := by
  have hq : sanitizeQuestions [fallbackQuestion] =
      some [⟨"Error occurred. Is this a test?", "true_false",
             ["True", "False"], "True"⟩] := by decide
  have hf1 : sanitizeFlashcards [fallbackFlashcard] =
      some [⟨"Error", "Try again later"⟩] := by decide
  have hf0 : sanitizeFlashcards ([] : List RawFlashcard) = some [] := rfl
  refine ⟨?_, ?_, ?_⟩
  · by_cases hs : (checkUserUsage uid now st).1.subscriptionStatus = "free"
    · refine ⟨(checkUserUsage uid now st).1.subscriptionStatus,
        (decrementFreeUsage (checkUserUsage uid now st).2).1,
        (decrementFreeUsage (checkUserUsage uid now st).2).2, ?_⟩
      cases inc <;>
        simp [createContentRoute, h, generateContent, hq, hf1, hf0, hs]
    · refine ⟨(checkUserUsage uid now st).1.subscriptionStatus,
        (checkUserUsage uid now st).1.remainingFree,
        (checkUserUsage uid now st).2, ?_⟩
      cases inc <;>
        simp [createContentRoute, h, generateContent, hq, hf1, hf0, hs]
  · by_cases hs : (checkUserUsage uid now st).1.subscriptionStatus = "free"
    · refine ⟨(checkUserUsage uid now st).1.subscriptionStatus,
        (decrementFreeUsage (checkUserUsage uid now st).2).1,
        (decrementFreeUsage (checkUserUsage uid now st).2).2, ?_⟩
      cases inc <;>
        simp [uploadPdfRoute, h, generateContent, hq, hf1, hf0, hs]
    · refine ⟨(checkUserUsage uid now st).1.subscriptionStatus,
        (checkUserUsage uid now st).1.remainingFree,
        (checkUserUsage uid now st).2, ?_⟩
      cases inc <;>
        simp [uploadPdfRoute, h, generateContent, hq, hf1, hf0, hs]
  · intro pdfOk persistOk
    simp [mockTestRoute, h, generateMockTest]

/-- Witness for C7 (amended): a free user with full quota, generator down:
the quiz route succeeds on the placeholder, the mock-test route errors. -/
theorem claim7_witness :
    (∃ stat rem st2, createContentRoute "u" 0 true true none true
        (some ⟨some "u", 10, "free", none, 0⟩) =
      (.created stat rem
        [⟨"Error occurred. Is this a test?", "true_false",
          ["True", "False"], "True"⟩]
        [⟨"Error", "Try again later"⟩], st2)) ∧
    mockTestRoute "u" 0 true none true true
        (some ⟨some "u", 10, "free", none, 0⟩) =
      (.serverError, some ⟨some "u", 10, "free", none, 0⟩) := by
  have h := claim7_amended_generator_failure_recovery "u" 0 true
    (some ⟨some "u", 10, "free", none, 0⟩) (by decide)
  refine ⟨?_, ?_⟩
  · simpa using h.1
  · have h2 := h.2.2 true true
    rw [h2]
    decide

/-- Claim C8: in every generation-gated route the free-quota decrement runs
only after the artifact is validated and persisted: evaluation itself never
changes an existing record's counter, a persistence failure precludes the
201 success, and any non-success outcome leaves the store at its
pre-decrement state (the untouched input state, or the state written by the
evaluation step, which preserves the counter). -/
theorem claim8_decrement_only_after_persist (uid : String) (now : Int)
    (st : Option UserRecord) :
    (∀ u, st = some u →
        ((checkUserUsage uid now st).2).map
            UserRecord.free_generations_remaining =
          some u.free_generations_remaining) ∧
    (∀ fv inc gen,
        ((createContentRoute uid now fv inc gen false st).1).isSuccess = false) ∧
    (∀ fp fvv pok rv inc gen,
        ((uploadPdfRoute uid now fp fvv pok rv inc gen false st).1).isSuccess
          = false) ∧
    (∀ fv gen pok,
        ((mockTestRoute uid now fv gen pok false st).1).isSuccess = false) ∧
    (∀ fv inc gen p,
        ((createContentRoute uid now fv inc gen p st).1).isSuccess = false →
        (createContentRoute uid now fv inc gen p st).2 = st ∨
        (createContentRoute uid now fv inc gen p st).2 =
          (checkUserUsage uid now st).2) ∧
    (∀ fp fvv pok rv inc gen p,
        ((uploadPdfRoute uid now fp fvv pok rv inc gen p st).1).isSuccess
            = false →
        (uploadPdfRoute uid now fp fvv pok rv inc gen p st).2 = st ∨
        (uploadPdfRoute uid now fp fvv pok rv inc gen p st).2 =
          (checkUserUsage uid now st).2) ∧
    (∀ fv gen pok p,
        ((mockTestRoute uid now fv gen pok p st).1).isSuccess = false →
        (mockTestRoute uid now fv gen pok p st).2 = st ∨
        (mockTestRoute uid now fv gen pok p st).2 =
          (checkUserUsage uid now st).2) := by
  refine ⟨?_, ?_, ?_, ?_, ?_, ?_, ?_⟩
  · intro u hu
    subst hu
    exact checkUserUsage_preserves_free uid now u
  · intro fv inc gen
    exact createContent_persistFail_no_success uid now fv inc gen st
  · intro fp fvv pok rv inc gen
    exact uploadPdf_persistFail_no_success uid now fp fvv pok rv inc gen st
  · intro fv gen pok
    exact mockTest_persistFail_no_success uid now fv gen pok st
  · intro fv inc gen p hfail
    exact createContent_fail_state uid now fv inc gen p st hfail
  · intro fp fvv pok rv inc gen p hfail
    exact uploadPdf_fail_state uid now fp fvv pok rv inc gen p st hfail
  · intro fv gen pok p hfail
    exact mockTest_fail_state uid now fv gen pok p st hfail

/-- Witness for C8: a store failure on `create_content` for a free user with
3 generations left is no success and leaves the record untouched. -/
theorem claim8_witness :
    ((createContentRoute "u" 0 true true none false
        (some ⟨some "u", 3, "free", none, 0⟩)).1).isSuccess = false ∧
    (createContentRoute "u" 0 true true none false
        (some ⟨some "u", 3, "free", none, 0⟩)).2 =
      some ⟨some "u", 3, "free", none, 0⟩ := by
  have hs := (claim8_decrement_only_after_persist "u" 0
      (some ⟨some "u", 3, "free", none, 0⟩)).2.1 true true none
  refine ⟨hs, ?_⟩
  have h := (claim8_decrement_only_after_persist "u" 0
      (some ⟨some "u", 3, "free", none, 0⟩)).2.2.2.2.1 true true none false hs
  rcases h with h | h
  · exact h
  · rw [h]
    decide

end GitQuizServer
